import Mathlib

/-!
Verification of `src/resources/checkout_session_ext.rs` (stripe-rs fork):
typed request/response shapes for the checkout-session and billing-portal
resources, their form-encoded wire serialization, JSON decoding of response
shapes, and the two thin `create` wrappers.

Embedding notes.
The request structs and their field order, wire names, optionality and the
`skip_serializing_if = "Option::is_none"` attributes are translated from the
Rust source.  Opaque string-wrapper identifier types (`CustomerId`,
`CouponId`, `PriceId`, `Currency`) and the closed string-backed enums
(`CheckoutSessionLocale`, `CheckoutSessionMode`, `CheckoutSessionSubmitType`)
live outside this module; per the spec they are carried here as their wire
strings.  Machine integers `i64`/`i32`/`u64` are carried as `Int`/`Int`/`Nat`;
no arithmetic is performed on them anywhere in this module, so overflow never
arises.

The form encoder itself (`Client::post_form` and its query-string encoder) is
not part of this module's source.  Modelled from the spec: the serializer
flattens a request value into an ordered list of key/value string pairs,
emitting nothing for an absent optional field, `parent[child]` keys for
nested objects, and `key[i]` keys for array elements in input order
(spec section 4.2).  Fields are emitted in struct declaration order, which is
what a derived serializer does.  Under this model a field whose `Option` is
`none` emits nothing whether or not the Rust field carries the
`skip_serializing_if` attribute (with the attribute the field is skipped
before reaching the encoder; without it the encoder emits nothing for an
absent value, which is what the spec prescribes for the wire format).

JSON decoding of response shapes is likewise derive-generated in the source.
Modelled from the spec: a missing field whose type is optional decodes to the
absent state, a missing required field is a hard error, a type mismatch is a
hard error, and unknown fields are ignored (spec section 4.4).
-/

namespace Stripe

/-- JSON values, the wire format consumed by response decoding. Numbers are
carried as `Int`: every numeric field of the shapes in this module is an
integer type in the source. -/
inductive Json where
  | null : Json
  | bool (b : Bool) : Json
  | num (n : Int) : Json
  | str (s : String) : Json
  | arr (elems : List Json) : Json
  | obj (fields : List (String × Json)) : Json
  deriving Repr

/-- `CheckoutAutomaticTax` from the source: one required `bool` field
`enabled`. -/
structure CheckoutAutomaticTax where
  enabled : Bool
  deriving Repr, DecidableEq

/-- `CheckoutDiscount` from the source: optional `coupon` (a `CouponId`,
carried as its wire string). -/
structure CheckoutDiscount where
  coupon : Option String
  deriving Repr, DecidableEq

/-- `SubscriptionData` from the source: optional `trial_period_days`
(an `i32`, carried as `Int`). -/
structure SubscriptionData where
  trial_period_days : Option Int
  deriving Repr, DecidableEq

/-- `CheckoutSessionLineItem` from the source, fields in declaration order:
optional `amount` (`i64`), optional `currency`, optional `name`, required
`quantity` (`u64`), optional `description`, optional `images`, optional
`price` (a `PriceId`). -/
structure CheckoutSessionLineItem where
  amount : Option Int
  currency : Option String
  name : Option String
  quantity : Nat
  description : Option String
  images : Option (List String)
  price : Option String
  deriving Repr, DecidableEq

/-- `CreateCheckoutSession` from the source, fields in declaration order.
`cancel_url`, `payment_method_types` and `success_url` are required; every
other field is optional. -/
structure CreateCheckoutSession where
  cancel_url : String
  payment_method_types : List String
  success_url : String
  client_reference_id : Option String
  customer : Option String
  customer_email : Option String
  billing_address_collection : Option String
  line_items : Option (List CheckoutSessionLineItem)
  locale : Option String
  mode : Option String
  discounts : Option (List CheckoutDiscount)
  submit_type : Option String
  subscription_data : Option SubscriptionData
  automatic_tax : Option CheckoutAutomaticTax
  deriving Repr, DecidableEq

/-- `BillingPortal` response shape from the source: optional `url`. -/
structure BillingPortal where
  url : Option String
  deriving Repr, DecidableEq

/-- `CreateBillingPortal` from the source: optional `customer`. -/
structure CreateBillingPortal where
  customer : Option String
  deriving Repr, DecidableEq

/-- `CheckoutSession` response shape.  Modelled from the spec: an opaque
response entity whose fields are not specified beyond existence; carried as
its raw decoded JSON. -/
structure CheckoutSession where
  raw : Json

/-! ## The serializer (spec section 4.2, field layout from the source) -/

/-- The wire pairs of one optional scalar field: nothing when absent, exactly
one `(key, value)` pair when present. -/
def optEntry (k : String) : Option String → List (String × String)
  | none => []
  | some v => [(k, v)]

/-- Booleans are stringified as `true` / `false` on the wire. -/
def boolWire (b : Bool) : String := if b then "true" else "false"

/-- The wire pairs of the required `payment_method_types` array: each element
under `payment_method_types[i]`, in input order. -/
def pmtSeg (ts : List String) : List (String × String) :=
  ts.enum.map (fun it => ("payment_method_types[" ++ (toString it.1 ++ "]"), it.2))

/-- The wire pairs of a line item's optional `images` array under the line
item's key `p`: element `j` under `p[images][j]`. -/
def imagesSeg (p : String) : Option (List String) → List (String × String)
  | none => []
  | some imgs => imgs.enum.map (fun iu => (p ++ ("[images][" ++ (toString iu.1 ++ "]")), iu.2))

/-- The wire pairs of one `CheckoutSessionLineItem` under key `p`, fields in
the source's declaration order.  `quantity` is required and always emitted;
every optional field emits nothing when absent. -/
def serLineItem (p : String) (li : CheckoutSessionLineItem) : List (String × String) :=
  optEntry (p ++ "[amount]") (li.amount.map (fun n => toString n)) ++
  optEntry (p ++ "[currency]") li.currency ++
  optEntry (p ++ "[name]") li.name ++
  [(p ++ "[quantity]", toString li.quantity)] ++
  optEntry (p ++ "[description]") li.description ++
  imagesSeg p li.images ++
  optEntry (p ++ "[price]") li.price

/-- The wire pairs of the optional `line_items` array: line item `i` under
`line_items[i]`, in input order. -/
def lineItemsSeg : Option (List CheckoutSessionLineItem) → List (String × String)
  | none => []
  | some ls =>
      (ls.enum.map (fun il => serLineItem ("line_items[" ++ (toString il.1 ++ "]")) il.2)).flatten

/-- The wire pairs of one `CheckoutDiscount` under key `p`. -/
def serDiscount (p : String) (d : CheckoutDiscount) : List (String × String) :=
  optEntry (p ++ "[coupon]") d.coupon

/-- The wire pairs of the optional `discounts` array: discount `i` under
`discounts[i]`, in input order. -/
def discountsSeg : Option (List CheckoutDiscount) → List (String × String)
  | none => []
  | some ds =>
      (ds.enum.map (fun idp => serDiscount ("discounts[" ++ (toString idp.1 ++ "]")) idp.2)).flatten

/-- The wire pairs of one `SubscriptionData` under key `p`. -/
def serSubscriptionData (p : String) (sd : SubscriptionData) : List (String × String) :=
  optEntry (p ++ "[trial_period_days]") (sd.trial_period_days.map (fun n => toString n))

/-- The wire pairs of the optional nested `subscription_data` object. -/
def subscriptionDataSeg : Option SubscriptionData → List (String × String)
  | none => []
  | some sd => serSubscriptionData "subscription_data" sd

/-- The wire pairs of one `CheckoutAutomaticTax` under key `p`: its required
`enabled` flag under `p[enabled]`. -/
def serAutomaticTax (p : String) (t : CheckoutAutomaticTax) : List (String × String) :=
  [(p ++ "[enabled]", boolWire t.enabled)]

/-- The wire pairs of the optional nested `automatic_tax` object. -/
def automaticTaxSeg : Option CheckoutAutomaticTax → List (String × String)
  | none => []
  | some t => serAutomaticTax "automatic_tax" t

/-- Serialization of `CreateCheckoutSession` to its wire payload: the ordered
key/value pairs of the form-encoded body, fields in the source's declaration
order, absent optional fields emitting nothing. -/
def serializeCreateCheckoutSession (s : CreateCheckoutSession) : List (String × String) :=
  [("cancel_url", s.cancel_url)] ++
  pmtSeg s.payment_method_types ++
  [("success_url", s.success_url)] ++
  optEntry "client_reference_id" s.client_reference_id ++
  optEntry "customer" s.customer ++
  optEntry "customer_email" s.customer_email ++
  optEntry "billing_address_collection" s.billing_address_collection ++
  lineItemsSeg s.line_items ++
  optEntry "locale" s.locale ++
  optEntry "mode" s.mode ++
  discountsSeg s.discounts ++
  optEntry "submit_type" s.submit_type ++
  subscriptionDataSeg s.subscription_data ++
  automaticTaxSeg s.automatic_tax

/-- Serialization of `CreateBillingPortal` to its wire payload. -/
def serializeCreateBillingPortal (s : CreateBillingPortal) : List (String × String) :=
  optEntry "customer" s.customer

/-! ## Transport adapter boundary and the two wrappers -/

/-- Modelled from the spec: the external transport adapter, opaque to this
module, capable of `post_form(path, params)` returning either a decoded
response value or a transport/API error. -/
structure Client (ε ρ : Type) where
  post_form : String → List (String × String) → Except ε ρ

/-- `CheckoutSession::create` from the source: posts the serialized params to
the fixed path `/checkout/sessions` and returns the adapter's result. -/
def CheckoutSession.create {ε : Type} (client : Client ε CheckoutSession)
    (params : CreateCheckoutSession) : Except ε CheckoutSession :=
  client.post_form "/checkout/sessions" (serializeCreateCheckoutSession params)

/-- `BillingPortal::create` from the source: posts the serialized params to
the fixed path `/billing_portal/sessions` and returns the adapter's result. -/
def BillingPortal.create {ε : Type} (client : Client ε BillingPortal)
    (params : CreateBillingPortal) : Except ε BillingPortal :=
  client.post_form "/billing_portal/sessions" (serializeCreateBillingPortal params)

/-! ## Key scoping: which wire keys belong to a given field

A wire key `k` belongs to the field named `f` when `k` is `f` itself or
starts with `f` followed by an opening bracket (the nested/array prefix
convention of spec section 4.2). -/

/-- `underField f k` holds when wire key `k` is the field name `f` itself or
carries it as a bracketed prefix (`f[...`). -/
def underField (f k : String) : Bool :=
  (k.data == f.data) || List.isPrefixOf (f.data ++ [openBracket]) k.data
where
  /-- The literal opening-bracket character of the wire convention. -/
  openBracket : Char := Char.ofNat 91

/-- The wire pairs of payload `l` that belong to field `f`. -/
def fieldEntries (f : String) (l : List (String × String)) : List (String × String) :=
  l.filter (fun q => underField f q.1)

/-- `underField` unfolded to its propositional reading. -/
theorem underField_eq_true_iff (f k : String) :
    underField f k = true ↔
      (k.data = f.data ∨ (f.data ++ [underField.openBracket]) <+: k.data) := by
  simp [underField]

/-- A key of shape `lit ++ x` is not under field `f` whenever `f[` is not a
prefix of `lit` and `lit` is not a prefix of `f[` (both checked on the
concrete strings). -/
theorem underField_lit_append_false (f lit x : String)
    (h1 : ¬ (f.data ++ [underField.openBracket]) <+: lit.data)
    (h2 : ¬ lit.data <+: (f.data ++ [underField.openBracket])) :
    underField f (lit ++ x) = false := by
  have hdata : (lit ++ x).data = lit.data ++ x.data := String.data_append lit x
  apply Bool.eq_false_iff.mpr
  intro hcontra
  rcases (underField_eq_true_iff f (lit ++ x)).mp hcontra with heq | hpre
  · rw [hdata] at heq
    exact h2 (List.IsPrefix.trans
      (by rw [← heq]; exact List.prefix_append lit.data x.data)
      (List.prefix_append f.data [underField.openBracket]))
  · rw [hdata] at hpre
    rcases List.prefix_or_prefix_of_prefix hpre
      (List.prefix_append lit.data x.data) with h | h
    · exact h1 h
    · exact h2 h

/-- A key of shape `(f ++ "[") ++ x` is always under field `f`. -/
theorem underField_bracket_append (f x : String) :
    underField f ((f ++ "[") ++ x) = true := by
  apply (underField_eq_true_iff f _).mpr
  right
  have hdata : ((f ++ "[") ++ x).data = (f.data ++ [underField.openBracket]) ++ x.data := by
    rw [String.data_append, String.data_append]
    rfl
  rw [hdata]
  exact List.prefix_append (f.data ++ [underField.openBracket]) x.data

/-- A field's own bare key is under the field. -/
theorem underField_self (f : String) : underField f f = true := by
  apply (underField_eq_true_iff f f).mpr
  left
  rfl

/-- Scoping a pair of keys sharing a common left part reduces to scoping
their tails. -/
theorem underField_append_left (p a b : String) :
    underField (p ++ a) (p ++ b) = underField a b := by
  unfold underField
  rw [String.data_append, String.data_append, List.append_assoc]
  have h1 : (p.data ++ b.data == p.data ++ a.data) = (b.data == a.data) := by
    cases hba : b.data == a.data with
    | true => simp [beq_iff_eq.mp hba]
    | false =>
        apply beq_eq_false_iff_ne.mpr
        intro hcontra
        exact beq_eq_false_iff_ne.mp hba (List.append_cancel_left hcontra)
  have h2 : List.isPrefixOf (p.data ++ (a.data ++ [underField.openBracket]))
      (p.data ++ b.data) = List.isPrefixOf (a.data ++ [underField.openBracket]) b.data := by
    cases htail : List.isPrefixOf (a.data ++ [underField.openBracket]) b.data with
    | true =>
        apply List.isPrefixOf_iff_prefix.mpr
        exact (List.prefix_append_right_inj p.data).mpr (List.isPrefixOf_iff_prefix.mp htail)
    | false =>
        apply Bool.eq_false_iff.mpr
        intro hcontra
        have := (List.prefix_append_right_inj p.data).mp
          (List.isPrefixOf_iff_prefix.mp hcontra)
        rw [Bool.eq_false_iff] at htail
        exact htail (List.isPrefixOf_iff_prefix.mpr this)
  rw [h1, h2]

/-! ## Per-segment scoping lemmas -/

/-- `fieldEntries` distributes over concatenation of payload segments. -/
theorem fieldEntries_append (f : String) (l₁ l₂ : List (String × String)) :
    fieldEntries f (l₁ ++ l₂) = fieldEntries f l₁ ++ fieldEntries f l₂ :=
  List.filter_append l₁ l₂

/-- Every pair an `optEntry` emits carries the entry's key. -/
theorem mem_optEntry (k : String) (o : Option String) (q : String × String)
    (h : q ∈ optEntry k o) : q.1 = k := by
  cases o with
  | none => simp [optEntry] at h
  | some v => simp only [optEntry, List.mem_singleton] at h; rw [h]

/-- A segment none of whose keys is under `f` contributes nothing to
`f`'s entries. -/
theorem filt_nil_of_keys (f : String) (l : List (String × String))
    (h : ∀ q ∈ l, underField f q.1 = false) : fieldEntries f l = [] := by
  apply List.filter_eq_nil_iff.mpr
  intro q hq
  rw [h q hq]
  exact Bool.false_ne_true

/-- A segment all of whose keys are under `f` is exactly `f`'s entries. -/
theorem filt_self_of_keys (f : String) (l : List (String × String))
    (h : ∀ q ∈ l, underField f q.1 = true) : fieldEntries f l = l :=
  List.filter_eq_self.mpr h

/-- An `optEntry` whose key is not under `f` contributes nothing. -/
theorem filt_optEntry_nil (f k : String) (o : Option String)
    (h : underField f k = false) : fieldEntries f (optEntry k o) = [] := by
  apply filt_nil_of_keys
  intro q hq
  rw [mem_optEntry k o q hq, h]

/-- A field's own `optEntry` is kept whole. -/
theorem filt_optEntry_self (k : String) (o : Option String) :
    fieldEntries k (optEntry k o) = optEntry k o := by
  apply filt_self_of_keys
  intro q hq
  rw [mem_optEntry k o q hq]
  exact underField_self k

/-- A singleton pair whose key is not under `f` contributes nothing. -/
theorem filt_pair_nil (f k v : String) (h : underField f k = false) :
    fieldEntries f [(k, v)] = [] := by
  apply filt_nil_of_keys
  intro q hq
  rw [List.mem_singleton] at hq
  rw [hq, h]

/-- Every key of the `payment_method_types` segment extends the literal
`payment_method_types[`. -/
theorem keys_pmtSeg (ts : List String) :
    ∀ q ∈ pmtSeg ts, ∃ x, q.1 = "payment_method_types[" ++ x := by
  intro q hq
  simp only [pmtSeg, List.mem_map] at hq
  rcases hq with ⟨it, _, rfl⟩
  exact ⟨toString it.1 ++ "]", rfl⟩

/-- Every key of an `images` segment extends `p` with `[images][`. -/
theorem keys_imagesSeg (p : String) (o : Option (List String)) :
    ∀ q ∈ imagesSeg p o, ∃ y, q.1 = p ++ ("[images][" ++ y) := by
  intro q hq
  cases o with
  | none => simp [imagesSeg] at hq
  | some imgs =>
      simp only [imagesSeg, List.mem_map] at hq
      rcases hq with ⟨iu, _, rfl⟩
      exact ⟨toString iu.1 ++ "]", rfl⟩

/-- Every key a line item emits under `p` extends `p`. -/
theorem keys_serLineItem (p : String) (li : CheckoutSessionLineItem) :
    ∀ q ∈ serLineItem p li, ∃ x, q.1 = p ++ x := by
  intro q hq
  simp only [serLineItem, List.mem_append, or_assoc] at hq
  rcases hq with h | h | h | h | h | h | h
  · exact ⟨"[amount]", mem_optEntry _ _ q h⟩
  · exact ⟨"[currency]", mem_optEntry _ _ q h⟩
  · exact ⟨"[name]", mem_optEntry _ _ q h⟩
  · rw [List.mem_singleton] at h
    exact ⟨"[quantity]", by rw [h]⟩
  · exact ⟨"[description]", mem_optEntry _ _ q h⟩
  · rcases keys_imagesSeg p li.images q h with ⟨y, hy⟩
    exact ⟨"[images][" ++ y, hy⟩
  · exact ⟨"[price]", mem_optEntry _ _ q h⟩

/-- Every key of the `line_items` segment extends the literal
`line_items[`. -/
theorem keys_lineItemsSeg (o : Option (List CheckoutSessionLineItem)) :
    ∀ q ∈ lineItemsSeg o, ∃ x, q.1 = "line_items[" ++ x := by
  intro q hq
  cases o with
  | none => simp [lineItemsSeg] at hq
  | some ls =>
      simp only [lineItemsSeg, List.mem_flatten, List.mem_map] at hq
      rcases hq with ⟨seg, ⟨il, _, rfl⟩, hq⟩
      rcases keys_serLineItem _ il.2 q hq with ⟨x, hx⟩
      refine ⟨(toString il.1 ++ "]") ++ x, ?_⟩
      rw [hx, String.append_assoc]

/-- Every key of the `discounts` segment extends the literal `discounts[`. -/
theorem keys_discountsSeg (o : Option (List CheckoutDiscount)) :
    ∀ q ∈ discountsSeg o, ∃ x, q.1 = "discounts[" ++ x := by
  intro q hq
  cases o with
  | none => simp [discountsSeg] at hq
  | some ds =>
      simp only [discountsSeg, List.mem_flatten, List.mem_map] at hq
      rcases hq with ⟨seg, ⟨idp, _, rfl⟩, hq⟩
      have hk := mem_optEntry _ _ q hq
      refine ⟨(toString idp.1 ++ "]") ++ "[coupon]", ?_⟩
      rw [hk, String.append_assoc]

/-- The `payment_method_types` segment contributes nothing to a field whose
bracketed name is prefix-incompatible with its literal head. -/
theorem filt_pmtSeg_nil (f : String) (ts : List String)
    (h1 : ¬ (f.data ++ [underField.openBracket]) <+: "payment_method_types[".data)
    (h2 : ¬ "payment_method_types[".data <+: (f.data ++ [underField.openBracket])) :
    fieldEntries f (pmtSeg ts) = [] := by
  apply filt_nil_of_keys
  intro q hq
  rcases keys_pmtSeg ts q hq with ⟨x, hx⟩
  rw [hx]
  exact underField_lit_append_false f _ x h1 h2

/-- The `line_items` segment contributes nothing to a prefix-incompatible
field. -/
theorem filt_lineItemsSeg_nil (f : String) (o : Option (List CheckoutSessionLineItem))
    (h1 : ¬ (f.data ++ [underField.openBracket]) <+: "line_items[".data)
    (h2 : ¬ "line_items[".data <+: (f.data ++ [underField.openBracket])) :
    fieldEntries f (lineItemsSeg o) = [] := by
  apply filt_nil_of_keys
  intro q hq
  rcases keys_lineItemsSeg o q hq with ⟨x, hx⟩
  rw [hx]
  exact underField_lit_append_false f _ x h1 h2

/-- The `discounts` segment contributes nothing to a prefix-incompatible
field. -/
theorem filt_discountsSeg_nil (f : String) (o : Option (List CheckoutDiscount))
    (h1 : ¬ (f.data ++ [underField.openBracket]) <+: "discounts[".data)
    (h2 : ¬ "discounts[".data <+: (f.data ++ [underField.openBracket])) :
    fieldEntries f (discountsSeg o) = [] := by
  apply filt_nil_of_keys
  intro q hq
  rcases keys_discountsSeg o q hq with ⟨x, hx⟩
  rw [hx]
  exact underField_lit_append_false f _ x h1 h2

/-- The `subscription_data` segment contributes nothing to a field its one
key is not under. -/
theorem filt_subDataSeg_nil (f : String) (o : Option SubscriptionData)
    (h : underField f ("subscription_data" ++ "[trial_period_days]") = false) :
    fieldEntries f (subscriptionDataSeg o) = [] := by
  cases o with
  | none => rfl
  | some sd => exact filt_optEntry_nil f _ _ h

/-- The `automatic_tax` segment contributes nothing to a field its one key
is not under. -/
theorem filt_autoTaxSeg_nil (f : String) (o : Option CheckoutAutomaticTax)
    (h : underField f ("automatic_tax" ++ "[enabled]") = false) :
    fieldEntries f (automaticTaxSeg o) = [] := by
  cases o with
  | none => rfl
  | some t => exact filt_pair_nil f _ _ h

/-- The `subscription_data` field keeps its whole segment. -/
theorem filt_subDataSeg_self (o : Option SubscriptionData) :
    fieldEntries "subscription_data" (subscriptionDataSeg o) = subscriptionDataSeg o := by
  cases o with
  | none => rfl
  | some sd =>
      apply filt_self_of_keys
      intro q hq
      rw [mem_optEntry _ _ q hq]
      decide

/-- The `automatic_tax` field keeps its whole segment. -/
theorem filt_autoTaxSeg_self (o : Option CheckoutAutomaticTax) :
    fieldEntries "automatic_tax" (automaticTaxSeg o) = automaticTaxSeg o := by
  cases o with
  | none => rfl
  | some t =>
      apply filt_self_of_keys
      intro q hq
      simp only [automaticTaxSeg, serAutomaticTax, List.mem_singleton] at hq
      rw [hq]
      show underField "automatic_tax" ("automatic_tax" ++ "[enabled]") = true
      decide

/-- The `line_items` field keeps its whole segment. -/
theorem filt_lineItemsSeg_self (o : Option (List CheckoutSessionLineItem)) :
    fieldEntries "line_items" (lineItemsSeg o) = lineItemsSeg o := by
  apply filt_self_of_keys
  intro q hq
  rcases keys_lineItemsSeg o q hq with ⟨x, hx⟩
  rw [hx, show ("line_items[" : String) = "line_items" ++ "[" from by decide]
  exact underField_bracket_append "line_items" x

/-- The `discounts` field keeps its whole segment. -/
theorem filt_discountsSeg_self (o : Option (List CheckoutDiscount)) :
    fieldEntries "discounts" (discountsSeg o) = discountsSeg o := by
  apply filt_self_of_keys
  intro q hq
  rcases keys_discountsSeg o q hq with ⟨x, hx⟩
  rw [hx, show ("discounts[" : String) = "discounts" ++ "[" from by decide]
  exact underField_bracket_append "discounts" x

/-! ## The wire entries of each optional field of `CreateCheckoutSession` -/

/-- The `locale` entries of a serialized session are exactly its `locale`
segment. -/
theorem fe_session_locale (s : CreateCheckoutSession) :
    fieldEntries "locale" (serializeCreateCheckoutSession s) = optEntry "locale" s.locale := by
  simp only [serializeCreateCheckoutSession, fieldEntries_append]
  rw [filt_pair_nil "locale" "cancel_url" s.cancel_url (by decide),
    filt_pmtSeg_nil "locale" s.payment_method_types (by decide) (by decide),
    filt_pair_nil "locale" "success_url" s.success_url (by decide),
    filt_optEntry_nil "locale" "client_reference_id" s.client_reference_id (by decide),
    filt_optEntry_nil "locale" "customer" s.customer (by decide),
    filt_optEntry_nil "locale" "customer_email" s.customer_email (by decide),
    filt_optEntry_nil "locale" "billing_address_collection" s.billing_address_collection
      (by decide),
    filt_lineItemsSeg_nil "locale" s.line_items (by decide) (by decide),
    filt_optEntry_self "locale" s.locale,
    filt_optEntry_nil "locale" "mode" s.mode (by decide),
    filt_discountsSeg_nil "locale" s.discounts (by decide) (by decide),
    filt_optEntry_nil "locale" "submit_type" s.submit_type (by decide),
    filt_subDataSeg_nil "locale" s.subscription_data (by decide),
    filt_autoTaxSeg_nil "locale" s.automatic_tax (by decide)]
  simp

/-- The `client_reference_id` entries of a serialized session are exactly its
`client_reference_id` segment. -/
theorem fe_session_client_reference_id (s : CreateCheckoutSession) :
    fieldEntries "client_reference_id" (serializeCreateCheckoutSession s) = optEntry "client_reference_id" s.client_reference_id := by
  simp only [serializeCreateCheckoutSession, fieldEntries_append]
  rw [filt_pair_nil "client_reference_id" "cancel_url" s.cancel_url (by decide),
    filt_pmtSeg_nil "client_reference_id" s.payment_method_types (by decide) (by decide),
    filt_pair_nil "client_reference_id" "success_url" s.success_url (by decide),
    filt_optEntry_self "client_reference_id" s.client_reference_id,
    filt_optEntry_nil "client_reference_id" "customer" s.customer (by decide),
    filt_optEntry_nil "client_reference_id" "customer_email" s.customer_email (by decide),
    filt_optEntry_nil "client_reference_id" "billing_address_collection" s.billing_address_collection (by decide),
    filt_lineItemsSeg_nil "client_reference_id" s.line_items (by decide) (by decide),
    filt_optEntry_nil "client_reference_id" "locale" s.locale (by decide),
    filt_optEntry_nil "client_reference_id" "mode" s.mode (by decide),
    filt_discountsSeg_nil "client_reference_id" s.discounts (by decide) (by decide),
    filt_optEntry_nil "client_reference_id" "submit_type" s.submit_type (by decide),
    filt_subDataSeg_nil "client_reference_id" s.subscription_data (by decide),
    filt_autoTaxSeg_nil "client_reference_id" s.automatic_tax (by decide)]
  simp

/-- The `customer` entries of a serialized session are exactly its
`customer` segment. -/
theorem fe_session_customer (s : CreateCheckoutSession) :
    fieldEntries "customer" (serializeCreateCheckoutSession s) = optEntry "customer" s.customer := by
  simp only [serializeCreateCheckoutSession, fieldEntries_append]
  rw [filt_pair_nil "customer" "cancel_url" s.cancel_url (by decide),
    filt_pmtSeg_nil "customer" s.payment_method_types (by decide) (by decide),
    filt_pair_nil "customer" "success_url" s.success_url (by decide),
    filt_optEntry_nil "customer" "client_reference_id" s.client_reference_id (by decide),
    filt_optEntry_self "customer" s.customer,
    filt_optEntry_nil "customer" "customer_email" s.customer_email (by decide),
    filt_optEntry_nil "customer" "billing_address_collection" s.billing_address_collection (by decide),
    filt_lineItemsSeg_nil "customer" s.line_items (by decide) (by decide),
    filt_optEntry_nil "customer" "locale" s.locale (by decide),
    filt_optEntry_nil "customer" "mode" s.mode (by decide),
    filt_discountsSeg_nil "customer" s.discounts (by decide) (by decide),
    filt_optEntry_nil "customer" "submit_type" s.submit_type (by decide),
    filt_subDataSeg_nil "customer" s.subscription_data (by decide),
    filt_autoTaxSeg_nil "customer" s.automatic_tax (by decide)]
  simp

/-- The `customer_email` entries of a serialized session are exactly its
`customer_email` segment. -/
theorem fe_session_customer_email (s : CreateCheckoutSession) :
    fieldEntries "customer_email" (serializeCreateCheckoutSession s) = optEntry "customer_email" s.customer_email := by
  simp only [serializeCreateCheckoutSession, fieldEntries_append]
  rw [filt_pair_nil "customer_email" "cancel_url" s.cancel_url (by decide),
    filt_pmtSeg_nil "customer_email" s.payment_method_types (by decide) (by decide),
    filt_pair_nil "customer_email" "success_url" s.success_url (by decide),
    filt_optEntry_nil "customer_email" "client_reference_id" s.client_reference_id (by decide),
    filt_optEntry_nil "customer_email" "customer" s.customer (by decide),
    filt_optEntry_self "customer_email" s.customer_email,
    filt_optEntry_nil "customer_email" "billing_address_collection" s.billing_address_collection (by decide),
    filt_lineItemsSeg_nil "customer_email" s.line_items (by decide) (by decide),
    filt_optEntry_nil "customer_email" "locale" s.locale (by decide),
    filt_optEntry_nil "customer_email" "mode" s.mode (by decide),
    filt_discountsSeg_nil "customer_email" s.discounts (by decide) (by decide),
    filt_optEntry_nil "customer_email" "submit_type" s.submit_type (by decide),
    filt_subDataSeg_nil "customer_email" s.subscription_data (by decide),
    filt_autoTaxSeg_nil "customer_email" s.automatic_tax (by decide)]
  simp

/-- The `billing_address_collection` entries of a serialized session are exactly its
`billing_address_collection` segment. -/
theorem fe_session_billing_address_collection (s : CreateCheckoutSession) :
    fieldEntries "billing_address_collection" (serializeCreateCheckoutSession s) = optEntry "billing_address_collection" s.billing_address_collection := by
  simp only [serializeCreateCheckoutSession, fieldEntries_append]
  rw [filt_pair_nil "billing_address_collection" "cancel_url" s.cancel_url (by decide),
    filt_pmtSeg_nil "billing_address_collection" s.payment_method_types (by decide) (by decide),
    filt_pair_nil "billing_address_collection" "success_url" s.success_url (by decide),
    filt_optEntry_nil "billing_address_collection" "client_reference_id" s.client_reference_id (by decide),
    filt_optEntry_nil "billing_address_collection" "customer" s.customer (by decide),
    filt_optEntry_nil "billing_address_collection" "customer_email" s.customer_email (by decide),
    filt_optEntry_self "billing_address_collection" s.billing_address_collection,
    filt_lineItemsSeg_nil "billing_address_collection" s.line_items (by decide) (by decide),
    filt_optEntry_nil "billing_address_collection" "locale" s.locale (by decide),
    filt_optEntry_nil "billing_address_collection" "mode" s.mode (by decide),
    filt_discountsSeg_nil "billing_address_collection" s.discounts (by decide) (by decide),
    filt_optEntry_nil "billing_address_collection" "submit_type" s.submit_type (by decide),
    filt_subDataSeg_nil "billing_address_collection" s.subscription_data (by decide),
    filt_autoTaxSeg_nil "billing_address_collection" s.automatic_tax (by decide)]
  simp

/-- The `mode` entries of a serialized session are exactly its
`mode` segment. -/
theorem fe_session_mode (s : CreateCheckoutSession) :
    fieldEntries "mode" (serializeCreateCheckoutSession s) = optEntry "mode" s.mode := by
  simp only [serializeCreateCheckoutSession, fieldEntries_append]
  rw [filt_pair_nil "mode" "cancel_url" s.cancel_url (by decide),
    filt_pmtSeg_nil "mode" s.payment_method_types (by decide) (by decide),
    filt_pair_nil "mode" "success_url" s.success_url (by decide),
    filt_optEntry_nil "mode" "client_reference_id" s.client_reference_id (by decide),
    filt_optEntry_nil "mode" "customer" s.customer (by decide),
    filt_optEntry_nil "mode" "customer_email" s.customer_email (by decide),
    filt_optEntry_nil "mode" "billing_address_collection" s.billing_address_collection (by decide),
    filt_lineItemsSeg_nil "mode" s.line_items (by decide) (by decide),
    filt_optEntry_nil "mode" "locale" s.locale (by decide),
    filt_optEntry_self "mode" s.mode,
    filt_discountsSeg_nil "mode" s.discounts (by decide) (by decide),
    filt_optEntry_nil "mode" "submit_type" s.submit_type (by decide),
    filt_subDataSeg_nil "mode" s.subscription_data (by decide),
    filt_autoTaxSeg_nil "mode" s.automatic_tax (by decide)]
  simp

/-- The `submit_type` entries of a serialized session are exactly its
`submit_type` segment. -/
theorem fe_session_submit_type (s : CreateCheckoutSession) :
    fieldEntries "submit_type" (serializeCreateCheckoutSession s) = optEntry "submit_type" s.submit_type := by
  simp only [serializeCreateCheckoutSession, fieldEntries_append]
  rw [filt_pair_nil "submit_type" "cancel_url" s.cancel_url (by decide),
    filt_pmtSeg_nil "submit_type" s.payment_method_types (by decide) (by decide),
    filt_pair_nil "submit_type" "success_url" s.success_url (by decide),
    filt_optEntry_nil "submit_type" "client_reference_id" s.client_reference_id (by decide),
    filt_optEntry_nil "submit_type" "customer" s.customer (by decide),
    filt_optEntry_nil "submit_type" "customer_email" s.customer_email (by decide),
    filt_optEntry_nil "submit_type" "billing_address_collection" s.billing_address_collection (by decide),
    filt_lineItemsSeg_nil "submit_type" s.line_items (by decide) (by decide),
    filt_optEntry_nil "submit_type" "locale" s.locale (by decide),
    filt_optEntry_nil "submit_type" "mode" s.mode (by decide),
    filt_discountsSeg_nil "submit_type" s.discounts (by decide) (by decide),
    filt_optEntry_self "submit_type" s.submit_type,
    filt_subDataSeg_nil "submit_type" s.subscription_data (by decide),
    filt_autoTaxSeg_nil "submit_type" s.automatic_tax (by decide)]
  simp

/-- The `line_items` entries of a serialized session are exactly its
`line_items` segment. -/
theorem fe_session_line_items (s : CreateCheckoutSession) :
    fieldEntries "line_items" (serializeCreateCheckoutSession s) = lineItemsSeg s.line_items := by
  simp only [serializeCreateCheckoutSession, fieldEntries_append]
  rw [filt_pair_nil "line_items" "cancel_url" s.cancel_url (by decide),
    filt_pmtSeg_nil "line_items" s.payment_method_types (by decide) (by decide),
    filt_pair_nil "line_items" "success_url" s.success_url (by decide),
    filt_optEntry_nil "line_items" "client_reference_id" s.client_reference_id (by decide),
    filt_optEntry_nil "line_items" "customer" s.customer (by decide),
    filt_optEntry_nil "line_items" "customer_email" s.customer_email (by decide),
    filt_optEntry_nil "line_items" "billing_address_collection" s.billing_address_collection (by decide),
    filt_lineItemsSeg_self s.line_items,
    filt_optEntry_nil "line_items" "locale" s.locale (by decide),
    filt_optEntry_nil "line_items" "mode" s.mode (by decide),
    filt_discountsSeg_nil "line_items" s.discounts (by decide) (by decide),
    filt_optEntry_nil "line_items" "submit_type" s.submit_type (by decide),
    filt_subDataSeg_nil "line_items" s.subscription_data (by decide),
    filt_autoTaxSeg_nil "line_items" s.automatic_tax (by decide)]
  simp

/-- The `discounts` entries of a serialized session are exactly its
`discounts` segment. -/
theorem fe_session_discounts (s : CreateCheckoutSession) :
    fieldEntries "discounts" (serializeCreateCheckoutSession s) = discountsSeg s.discounts := by
  simp only [serializeCreateCheckoutSession, fieldEntries_append]
  rw [filt_pair_nil "discounts" "cancel_url" s.cancel_url (by decide),
    filt_pmtSeg_nil "discounts" s.payment_method_types (by decide) (by decide),
    filt_pair_nil "discounts" "success_url" s.success_url (by decide),
    filt_optEntry_nil "discounts" "client_reference_id" s.client_reference_id (by decide),
    filt_optEntry_nil "discounts" "customer" s.customer (by decide),
    filt_optEntry_nil "discounts" "customer_email" s.customer_email (by decide),
    filt_optEntry_nil "discounts" "billing_address_collection" s.billing_address_collection (by decide),
    filt_lineItemsSeg_nil "discounts" s.line_items (by decide) (by decide),
    filt_optEntry_nil "discounts" "locale" s.locale (by decide),
    filt_optEntry_nil "discounts" "mode" s.mode (by decide),
    filt_discountsSeg_self s.discounts,
    filt_optEntry_nil "discounts" "submit_type" s.submit_type (by decide),
    filt_subDataSeg_nil "discounts" s.subscription_data (by decide),
    filt_autoTaxSeg_nil "discounts" s.automatic_tax (by decide)]
  simp

/-- The `subscription_data` entries of a serialized session are exactly its
`subscription_data` segment. -/
theorem fe_session_subscription_data (s : CreateCheckoutSession) :
    fieldEntries "subscription_data" (serializeCreateCheckoutSession s) = subscriptionDataSeg s.subscription_data := by
  simp only [serializeCreateCheckoutSession, fieldEntries_append]
  rw [filt_pair_nil "subscription_data" "cancel_url" s.cancel_url (by decide),
    filt_pmtSeg_nil "subscription_data" s.payment_method_types (by decide) (by decide),
    filt_pair_nil "subscription_data" "success_url" s.success_url (by decide),
    filt_optEntry_nil "subscription_data" "client_reference_id" s.client_reference_id (by decide),
    filt_optEntry_nil "subscription_data" "customer" s.customer (by decide),
    filt_optEntry_nil "subscription_data" "customer_email" s.customer_email (by decide),
    filt_optEntry_nil "subscription_data" "billing_address_collection" s.billing_address_collection (by decide),
    filt_lineItemsSeg_nil "subscription_data" s.line_items (by decide) (by decide),
    filt_optEntry_nil "subscription_data" "locale" s.locale (by decide),
    filt_optEntry_nil "subscription_data" "mode" s.mode (by decide),
    filt_discountsSeg_nil "subscription_data" s.discounts (by decide) (by decide),
    filt_optEntry_nil "subscription_data" "submit_type" s.submit_type (by decide),
    filt_subDataSeg_self s.subscription_data,
    filt_autoTaxSeg_nil "subscription_data" s.automatic_tax (by decide)]
  simp

/-- The `automatic_tax` entries of a serialized session are exactly its
`automatic_tax` segment. -/
theorem fe_session_automatic_tax (s : CreateCheckoutSession) :
    fieldEntries "automatic_tax" (serializeCreateCheckoutSession s) = automaticTaxSeg s.automatic_tax := by
  simp only [serializeCreateCheckoutSession, fieldEntries_append]
  rw [filt_pair_nil "automatic_tax" "cancel_url" s.cancel_url (by decide),
    filt_pmtSeg_nil "automatic_tax" s.payment_method_types (by decide) (by decide),
    filt_pair_nil "automatic_tax" "success_url" s.success_url (by decide),
    filt_optEntry_nil "automatic_tax" "client_reference_id" s.client_reference_id (by decide),
    filt_optEntry_nil "automatic_tax" "customer" s.customer (by decide),
    filt_optEntry_nil "automatic_tax" "customer_email" s.customer_email (by decide),
    filt_optEntry_nil "automatic_tax" "billing_address_collection" s.billing_address_collection (by decide),
    filt_lineItemsSeg_nil "automatic_tax" s.line_items (by decide) (by decide),
    filt_optEntry_nil "automatic_tax" "locale" s.locale (by decide),
    filt_optEntry_nil "automatic_tax" "mode" s.mode (by decide),
    filt_discountsSeg_nil "automatic_tax" s.discounts (by decide) (by decide),
    filt_optEntry_nil "automatic_tax" "submit_type" s.submit_type (by decide),
    filt_subDataSeg_nil "automatic_tax" s.subscription_data (by decide),
    filt_autoTaxSeg_self s.automatic_tax]
  simp


/-! ## The wire entries of each optional field of the nested shapes -/

/-- An `images` segment contributes nothing to a sibling line-item field. -/
theorem filt_imagesSeg_nil (p f2 : String) (o : Option (List String))
    (h1 : ¬ (f2.data ++ [underField.openBracket]) <+: "[images][".data)
    (h2 : ¬ "[images][".data <+: (f2.data ++ [underField.openBracket])) :
    fieldEntries (p ++ f2) (imagesSeg p o) = [] := by
  apply filt_nil_of_keys
  intro q hq
  rcases keys_imagesSeg p o q hq with ⟨y, hy⟩
  rw [hy, underField_append_left]
  exact underField_lit_append_false f2 "[images][" y h1 h2

/-- The `images` field of a line item keeps its whole segment. -/
theorem filt_imagesSeg_self (p : String) (o : Option (List String)) :
    fieldEntries (p ++ "[images]") (imagesSeg p o) = imagesSeg p o := by
  apply filt_self_of_keys
  intro q hq
  rcases keys_imagesSeg p o q hq with ⟨y, hy⟩
  rw [hy, underField_append_left,
    show ("[images][" : String) = "[images]" ++ "[" from by decide]
  exact underField_bracket_append "[images]" y

/-- The `amount` entries of a line item serialized under `p` are exactly
its `amount` segment. -/
theorem fe_lineItem_amount (p : String) (li : CheckoutSessionLineItem) :
    fieldEntries (p ++ "[amount]") (serLineItem p li) = optEntry (p ++ "[amount]") (li.amount.map (fun n => toString n)) := by
  simp only [serLineItem, fieldEntries_append]
  rw [filt_optEntry_self (p ++ "[amount]") _,
    filt_optEntry_nil (p ++ "[amount]") (p ++ "[currency]") _ (by rw [underField_append_left]; decide),
    filt_optEntry_nil (p ++ "[amount]") (p ++ "[name]") _ (by rw [underField_append_left]; decide),
    filt_pair_nil (p ++ "[amount]") (p ++ "[quantity]") _ (by rw [underField_append_left]; decide),
    filt_optEntry_nil (p ++ "[amount]") (p ++ "[description]") _ (by rw [underField_append_left]; decide),
    filt_imagesSeg_nil p "[amount]" li.images (by decide) (by decide),
    filt_optEntry_nil (p ++ "[amount]") (p ++ "[price]") _ (by rw [underField_append_left]; decide)]
  simp

/-- The `currency` entries of a line item serialized under `p` are exactly
its `currency` segment. -/
theorem fe_lineItem_currency (p : String) (li : CheckoutSessionLineItem) :
    fieldEntries (p ++ "[currency]") (serLineItem p li) = optEntry (p ++ "[currency]") li.currency := by
  simp only [serLineItem, fieldEntries_append]
  rw [filt_optEntry_nil (p ++ "[currency]") (p ++ "[amount]") _ (by rw [underField_append_left]; decide),
    filt_optEntry_self (p ++ "[currency]") _,
    filt_optEntry_nil (p ++ "[currency]") (p ++ "[name]") _ (by rw [underField_append_left]; decide),
    filt_pair_nil (p ++ "[currency]") (p ++ "[quantity]") _ (by rw [underField_append_left]; decide),
    filt_optEntry_nil (p ++ "[currency]") (p ++ "[description]") _ (by rw [underField_append_left]; decide),
    filt_imagesSeg_nil p "[currency]" li.images (by decide) (by decide),
    filt_optEntry_nil (p ++ "[currency]") (p ++ "[price]") _ (by rw [underField_append_left]; decide)]
  simp

/-- The `name` entries of a line item serialized under `p` are exactly
its `name` segment. -/
theorem fe_lineItem_name (p : String) (li : CheckoutSessionLineItem) :
    fieldEntries (p ++ "[name]") (serLineItem p li) = optEntry (p ++ "[name]") li.name := by
  simp only [serLineItem, fieldEntries_append]
  rw [filt_optEntry_nil (p ++ "[name]") (p ++ "[amount]") _ (by rw [underField_append_left]; decide),
    filt_optEntry_nil (p ++ "[name]") (p ++ "[currency]") _ (by rw [underField_append_left]; decide),
    filt_optEntry_self (p ++ "[name]") _,
    filt_pair_nil (p ++ "[name]") (p ++ "[quantity]") _ (by rw [underField_append_left]; decide),
    filt_optEntry_nil (p ++ "[name]") (p ++ "[description]") _ (by rw [underField_append_left]; decide),
    filt_imagesSeg_nil p "[name]" li.images (by decide) (by decide),
    filt_optEntry_nil (p ++ "[name]") (p ++ "[price]") _ (by rw [underField_append_left]; decide)]
  simp

/-- The `description` entries of a line item serialized under `p` are exactly
its `description` segment. -/
theorem fe_lineItem_description (p : String) (li : CheckoutSessionLineItem) :
    fieldEntries (p ++ "[description]") (serLineItem p li) = optEntry (p ++ "[description]") li.description := by
  simp only [serLineItem, fieldEntries_append]
  rw [filt_optEntry_nil (p ++ "[description]") (p ++ "[amount]") _ (by rw [underField_append_left]; decide),
    filt_optEntry_nil (p ++ "[description]") (p ++ "[currency]") _ (by rw [underField_append_left]; decide),
    filt_optEntry_nil (p ++ "[description]") (p ++ "[name]") _ (by rw [underField_append_left]; decide),
    filt_pair_nil (p ++ "[description]") (p ++ "[quantity]") _ (by rw [underField_append_left]; decide),
    filt_optEntry_self (p ++ "[description]") _,
    filt_imagesSeg_nil p "[description]" li.images (by decide) (by decide),
    filt_optEntry_nil (p ++ "[description]") (p ++ "[price]") _ (by rw [underField_append_left]; decide)]
  simp

/-- The `images` entries of a line item serialized under `p` are exactly
its `images` segment. -/
theorem fe_lineItem_images (p : String) (li : CheckoutSessionLineItem) :
    fieldEntries (p ++ "[images]") (serLineItem p li) = imagesSeg p li.images := by
  simp only [serLineItem, fieldEntries_append]
  rw [filt_optEntry_nil (p ++ "[images]") (p ++ "[amount]") _ (by rw [underField_append_left]; decide),
    filt_optEntry_nil (p ++ "[images]") (p ++ "[currency]") _ (by rw [underField_append_left]; decide),
    filt_optEntry_nil (p ++ "[images]") (p ++ "[name]") _ (by rw [underField_append_left]; decide),
    filt_pair_nil (p ++ "[images]") (p ++ "[quantity]") _ (by rw [underField_append_left]; decide),
    filt_optEntry_nil (p ++ "[images]") (p ++ "[description]") _ (by rw [underField_append_left]; decide),
    filt_imagesSeg_self p li.images,
    filt_optEntry_nil (p ++ "[images]") (p ++ "[price]") _ (by rw [underField_append_left]; decide)]
  simp

/-- The `price` entries of a line item serialized under `p` are exactly
its `price` segment. -/
theorem fe_lineItem_price (p : String) (li : CheckoutSessionLineItem) :
    fieldEntries (p ++ "[price]") (serLineItem p li) = optEntry (p ++ "[price]") li.price := by
  simp only [serLineItem, fieldEntries_append]
  rw [filt_optEntry_nil (p ++ "[price]") (p ++ "[amount]") _ (by rw [underField_append_left]; decide),
    filt_optEntry_nil (p ++ "[price]") (p ++ "[currency]") _ (by rw [underField_append_left]; decide),
    filt_optEntry_nil (p ++ "[price]") (p ++ "[name]") _ (by rw [underField_append_left]; decide),
    filt_pair_nil (p ++ "[price]") (p ++ "[quantity]") _ (by rw [underField_append_left]; decide),
    filt_optEntry_nil (p ++ "[price]") (p ++ "[description]") _ (by rw [underField_append_left]; decide),
    filt_imagesSeg_nil p "[price]" li.images (by decide) (by decide),
    filt_optEntry_self (p ++ "[price]") _]
  simp

/-- The `coupon` entries of a discount serialized under `p` are exactly its
`coupon` segment. -/
theorem fe_discount_coupon (p : String) (d : CheckoutDiscount) :
    fieldEntries (p ++ "[coupon]") (serDiscount p d) =
      optEntry (p ++ "[coupon]") d.coupon :=
  filt_optEntry_self (p ++ "[coupon]") d.coupon

/-- The `trial_period_days` entries of a `SubscriptionData` serialized under
`p` are exactly its `trial_period_days` segment. -/
theorem fe_subData_trial (p : String) (sd : SubscriptionData) :
    fieldEntries (p ++ "[trial_period_days]") (serSubscriptionData p sd) =
      optEntry (p ++ "[trial_period_days]") (sd.trial_period_days.map (fun n => toString n)) :=
  filt_optEntry_self (p ++ "[trial_period_days]") _

/-- The `customer` entries of a serialized billing-portal request are exactly
its `customer` segment. -/
theorem fe_portal_customer (bp : CreateBillingPortal) :
    fieldEntries "customer" (serializeCreateBillingPortal bp) =
      optEntry "customer" bp.customer :=
  filt_optEntry_self "customer" bp.customer

/-! ## JSON decoding of the response shapes (spec section 4.4)

Modelled from the spec: the decoding code is derive-generated in the source;
its contract is that a present field must have the declared type, a missing
optional field decodes to the absent state, a missing required field or a
type mismatch is a hard error, and unknown fields are ignored. -/

/-- Look up a declared field in a decoded JSON object; every field not looked
up is ignored. -/
def getField? (fs : List (String × Json)) (k : String) : Option Json :=
  (fs.find? (fun q => q.1 == k)).map (fun q => q.2)

/-- Decode an optional string field: absent or `null` is the absent state, a
string is the value, anything else is a type error. -/
def decOptStr : Option Json → Except String (Option String)
  | none => .ok none
  | some .null => .ok none
  | some (.str s) => .ok (some s)
  | some _ => .error "invalid type"

/-- Decode an optional integer field. -/
def decOptInt : Option Json → Except String (Option Int)
  | none => .ok none
  | some .null => .ok none
  | some (.num n) => .ok (some n)
  | some _ => .error "invalid type"

/-- Decode a required boolean field: a missing field is a hard error, never
a default. -/
def decReqBool : Option Json → Except String Bool
  | none => .error "missing field"
  | some (.bool b) => .ok b
  | some _ => .error "invalid type"

/-- Decode a required unsigned integer field (`u64`): a missing field is a
hard error; a negative number is a type error. -/
def decReqNat : Option Json → Except String Nat
  | none => .error "missing field"
  | some (.num n) => if n < 0 then .error "invalid value" else .ok n.toNat
  | some _ => .error "invalid type"

/-- Decode a list of strings. -/
def decStrList : List Json → Except String (List String)
  | [] => .ok []
  | .str s :: rest => (decStrList rest).map (fun l => s :: l)
  | _ :: _ => .error "invalid type"

/-- Decode an optional list-of-strings field. -/
def decOptStrList : Option Json → Except String (Option (List String))
  | none => .ok none
  | some .null => .ok none
  | some (.arr elems) => (decStrList elems).map (fun l => some l)
  | some _ => .error "invalid type"

/-- Decode a `BillingPortal` response: its one declared field is the
optional `url`; unknown fields are ignored. -/
def BillingPortal.decode (j : Json) : Except String BillingPortal :=
  match j with
  | .obj fs => (decOptStr (getField? fs "url")).map (fun u => ⟨u⟩)
  | _ => .error "invalid type"

/-- Decode a `CheckoutAutomaticTax`: its `enabled` field is required. -/
def CheckoutAutomaticTax.decode (j : Json) : Except String CheckoutAutomaticTax :=
  match j with
  | .obj fs => (decReqBool (getField? fs "enabled")).map (fun b => ⟨b⟩)
  | _ => .error "invalid type"

/-- Decode a `CheckoutSessionLineItem`: `quantity` is required, every other
declared field optional; unknown fields are ignored. -/
def CheckoutSessionLineItem.decode (j : Json) : Except String CheckoutSessionLineItem :=
  match j with
  | .obj fs => do
      let amount ← decOptInt (getField? fs "amount")
      let currency ← decOptStr (getField? fs "currency")
      let name ← decOptStr (getField? fs "name")
      let quantity ← decReqNat (getField? fs "quantity")
      let description ← decOptStr (getField? fs "description")
      let images ← decOptStrList (getField? fs "images")
      let price ← decOptStr (getField? fs "price")
      return ⟨amount, currency, name, quantity, description, images, price⟩
  | _ => .error "invalid type"

/-! ## The claims -/

/-- Claim C1: across all request shapes, an absent optional field contributes
zero wire keys with the field's name or bracketed prefix, and a present
optional field contributes exactly one wire entry (for scalars) or exactly
its expected set of prefixed entries (for nested objects and arrays). -/
theorem optional_field_wire_discipline (s : CreateCheckoutSession) (p : String)
    (li : CheckoutSessionLineItem) (d : CheckoutDiscount) (sd : SubscriptionData)
    (bp : CreateBillingPortal) :
    (fieldEntries "client_reference_id" (serializeCreateCheckoutSession s) =
        optEntry "client_reference_id" s.client_reference_id)
    ∧ (fieldEntries "customer" (serializeCreateCheckoutSession s) =
        optEntry "customer" s.customer)
    ∧ (fieldEntries "customer_email" (serializeCreateCheckoutSession s) =
        optEntry "customer_email" s.customer_email)
    ∧ (fieldEntries "billing_address_collection" (serializeCreateCheckoutSession s) =
        optEntry "billing_address_collection" s.billing_address_collection)
    ∧ (fieldEntries "line_items" (serializeCreateCheckoutSession s) =
        lineItemsSeg s.line_items)
    ∧ (fieldEntries "locale" (serializeCreateCheckoutSession s) =
        optEntry "locale" s.locale)
    ∧ (fieldEntries "mode" (serializeCreateCheckoutSession s) =
        optEntry "mode" s.mode)
    ∧ (fieldEntries "discounts" (serializeCreateCheckoutSession s) =
        discountsSeg s.discounts)
    ∧ (fieldEntries "submit_type" (serializeCreateCheckoutSession s) =
        optEntry "submit_type" s.submit_type)
    ∧ (fieldEntries "subscription_data" (serializeCreateCheckoutSession s) =
        subscriptionDataSeg s.subscription_data)
    ∧ (fieldEntries "automatic_tax" (serializeCreateCheckoutSession s) =
        automaticTaxSeg s.automatic_tax)
    ∧ (fieldEntries (p ++ "[amount]") (serLineItem p li) =
        optEntry (p ++ "[amount]") (li.amount.map (fun n => toString n)))
    ∧ (fieldEntries (p ++ "[currency]") (serLineItem p li) =
        optEntry (p ++ "[currency]") li.currency)
    ∧ (fieldEntries (p ++ "[name]") (serLineItem p li) =
        optEntry (p ++ "[name]") li.name)
    ∧ (fieldEntries (p ++ "[description]") (serLineItem p li) =
        optEntry (p ++ "[description]") li.description)
    ∧ (fieldEntries (p ++ "[images]") (serLineItem p li) = imagesSeg p li.images)
    ∧ (fieldEntries (p ++ "[price]") (serLineItem p li) =
        optEntry (p ++ "[price]") li.price)
    ∧ (fieldEntries (p ++ "[coupon]") (serDiscount p d) =
        optEntry (p ++ "[coupon]") d.coupon)
    ∧ (fieldEntries (p ++ "[trial_period_days]") (serSubscriptionData p sd) =
        optEntry (p ++ "[trial_period_days]") (sd.trial_period_days.map (fun n => toString n)))
    ∧ (fieldEntries "customer" (serializeCreateBillingPortal bp) =
        optEntry "customer" bp.customer) :=
  ⟨fe_session_client_reference_id s, fe_session_customer s, fe_session_customer_email s,
    fe_session_billing_address_collection s, fe_session_line_items s, fe_session_locale s,
    fe_session_mode s, fe_session_discounts s, fe_session_submit_type s,
    fe_session_subscription_data s, fe_session_automatic_tax s,
    fe_lineItem_amount p li, fe_lineItem_currency p li, fe_lineItem_name p li,
    fe_lineItem_description p li, fe_lineItem_images p li, fe_lineItem_price p li,
    fe_discount_coupon p d, fe_subData_trial p sd, fe_portal_customer bp⟩

/-- Claim C2: the minimal checkout session (both URLs, one `card` payment
method type, everything else absent) serializes to exactly the three wire
entries `cancel_url`, `payment_method_types[0]` and `success_url`, with no
other key present. -/
theorem minimal_session_wire :
    serializeCreateCheckoutSession
      { cancel_url := "https://a/cancel", payment_method_types := ["card"],
        success_url := "https://a/success", client_reference_id := none,
        customer := none, customer_email := none, billing_address_collection := none,
        line_items := none, locale := none, mode := none, discounts := none,
        submit_type := none, subscription_data := none, automatic_tax := none } =
      [("cancel_url", "https://a/cancel"), ("payment_method_types[0]", "card"),
       ("success_url", "https://a/success")] := by
  decide

/-- Claim C3: each `create` wrapper posts the serialized params to its fixed
path and returns the transport adapter's result unmodified — success value or
error, with no retry or reinterpretation. -/
theorem create_fixed_path_passthrough {ε : Type} (c1 : Client ε CheckoutSession)
    (c2 : Client ε BillingPortal) (params : CreateCheckoutSession)
    (bparams : CreateBillingPortal) :
    CheckoutSession.create c1 params =
        c1.post_form "/checkout/sessions" (serializeCreateCheckoutSession params)
    ∧ BillingPortal.create c2 bparams =
        c2.post_form "/billing_portal/sessions" (serializeCreateBillingPortal bparams) :=
  ⟨rfl, rfl⟩

/-- Claim C4: a session whose `automatic_tax` is set with `enabled = true`
serializes that field to exactly the nested key `automatic_tax[enabled]` with
value `true`. -/
theorem automatic_tax_nested_key (s : CreateCheckoutSession)
    (h : s.automatic_tax = some ⟨true⟩) :
    fieldEntries "automatic_tax" (serializeCreateCheckoutSession s) =
      [("automatic_tax[enabled]", "true")] := by
  rw [fe_session_automatic_tax s, h]
  decide

/-- Witness for C4 at a concrete session. -/
theorem automatic_tax_nested_key_witness :
    fieldEntries "automatic_tax"
      (serializeCreateCheckoutSession
        { cancel_url := "https://a/cancel", payment_method_types := ["card"],
          success_url := "https://a/success", client_reference_id := none,
          customer := none, customer_email := none, billing_address_collection := none,
          line_items := none, locale := none, mode := none, discounts := none,
          submit_type := none, subscription_data := none,
          automatic_tax := some ⟨true⟩ }) =
      [("automatic_tax[enabled]", "true")] :=
  automatic_tax_nested_key _ rfl

/-- Claim C5: a billing-portal request with `customer` absent serializes to
zero wire keys, and `BillingPortal.create` still issues its single request to
`/billing_portal/sessions` (one adapter call with the empty payload). -/
theorem portal_empty_params_still_posts {ε : Type} (c : Client ε BillingPortal)
    (bp : CreateBillingPortal) (h : bp.customer = none) :
    serializeCreateBillingPortal bp = []
    ∧ BillingPortal.create c bp = c.post_form "/billing_portal/sessions" [] := by
  have hser : serializeCreateBillingPortal bp = [] := by
    rw [serializeCreateBillingPortal, h]
    rfl
  exact ⟨hser, by rw [BillingPortal.create, hser]⟩

/-- Witness for C5 at a concrete client and empty params. -/
theorem portal_empty_params_still_posts_witness :
    serializeCreateBillingPortal ⟨none⟩ = []
    ∧ BillingPortal.create
        (Client.mk (fun _ _ => Except.error 0) : Client Nat BillingPortal) ⟨none⟩ =
      (Client.mk (fun _ _ => Except.error 0) : Client Nat BillingPortal).post_form
        "/billing_portal/sessions" [] :=
  portal_empty_params_still_posts _ _ rfl

/-- Claim C6: every array-valued field serializes element `i` under
`<key>[<i>]`, indices from 0 in input order; in particular a two-element
`line_items` sequence `[A, B]` has `A`'s entries at index 0 and `B`'s at
index 1. -/
theorem array_order_preserved (ts : List String) (i : Nat) (t : String)
    (p : String) (imgs : List String) (j : Nat) (u : String)
    (d0 d1 : CheckoutDiscount) (s : CreateCheckoutSession)
    (A B : CheckoutSessionLineItem)
    (ht : ts[i]? = some t) (hu : imgs[j]? = some u)
    (hli : s.line_items = some [A, B]) :
    (pmtSeg ts)[i]? = some ("payment_method_types[" ++ (toString i ++ "]"), t)
    ∧ (imagesSeg p (some imgs))[j]? =
        some (p ++ ("[images][" ++ (toString j ++ "]")), u)
    ∧ discountsSeg (some [d0, d1]) =
        serDiscount "discounts[0]" d0 ++ serDiscount "discounts[1]" d1
    ∧ fieldEntries "line_items" (serializeCreateCheckoutSession s) =
        serLineItem "line_items[0]" A ++ serLineItem "line_items[1]" B := by
  refine ⟨?_, ?_, ?_, ?_⟩
  · rw [pmtSeg, List.getElem?_map, List.getElem?_enum, ht]
    rfl
  · rw [imagesSeg, List.getElem?_map, List.getElem?_enum, hu]
    rfl
  · have e0 : ("discounts[" ++ (toString (0 : Nat) ++ "]") : String) = "discounts[0]" := by
      decide
    have e1 : ("discounts[" ++ (toString (1 : Nat) ++ "]") : String) = "discounts[1]" := by
      decide
    simp [discountsSeg, List.enum, List.enumFrom, e0, e1]
  · have e0 : ("line_items[" ++ (toString (0 : Nat) ++ "]") : String) = "line_items[0]" := by
      decide
    have e1 : ("line_items[" ++ (toString (1 : Nat) ++ "]") : String) = "line_items[1]" := by
      decide
    rw [fe_session_line_items s, hli]
    simp [lineItemsSeg, List.enum, List.enumFrom, e0, e1]

/-- Witness for C6 at concrete arrays and a concrete session. -/
theorem array_order_preserved_witness :
    (pmtSeg ["card", "ideal"])[1]? =
        some ("payment_method_types[" ++ (toString 1 ++ "]"), "ideal")
    ∧ (imagesSeg "k" (some ["a", "b"]))[0]? =
        some ("k" ++ ("[images][" ++ (toString 0 ++ "]")), "a")
    ∧ discountsSeg (some [⟨some "c1"⟩, ⟨none⟩]) =
        serDiscount "discounts[0]" ⟨some "c1"⟩ ++ serDiscount "discounts[1]" ⟨none⟩
    ∧ fieldEntries "line_items"
        (serializeCreateCheckoutSession
          { cancel_url := "https://a/cancel", payment_method_types := ["card"],
            success_url := "https://a/success", client_reference_id := none,
            customer := none, customer_email := none,
            billing_address_collection := none,
            line_items := some [⟨none, none, none, 1, none, none, some "price_A"⟩,
              ⟨none, none, none, 2, none, none, some "price_B"⟩],
            locale := none, mode := none, discounts := none, submit_type := none,
            subscription_data := none, automatic_tax := none }) =
        serLineItem "line_items[0]" ⟨none, none, none, 1, none, none, some "price_A"⟩ ++
          serLineItem "line_items[1]" ⟨none, none, none, 2, none, none, some "price_B"⟩ :=
  array_order_preserved ["card", "ideal"] 1 "ideal" "k" ["a", "b"] 0 "a"
    ⟨some "c1"⟩ ⟨none⟩ _ _ _ rfl rfl rfl

/-- Claim C7: serialization is deterministic — equal request values produce
identical wire sequences (two-run equality of the pure serializer). -/
theorem serialization_deterministic (s t : CreateCheckoutSession) (h : s = t)
    (b c : CreateBillingPortal) (hb : b = c) :
    serializeCreateCheckoutSession s = serializeCreateCheckoutSession t
    ∧ serializeCreateBillingPortal b = serializeCreateBillingPortal c :=
  ⟨congrArg serializeCreateCheckoutSession h, congrArg serializeCreateBillingPortal hb⟩

/-- Witness for C7 at a concrete session and portal request. -/
theorem serialization_deterministic_witness :
    serializeCreateCheckoutSession
        { cancel_url := "https://a/cancel", payment_method_types := ["card"],
          success_url := "https://a/success", client_reference_id := none,
          customer := none, customer_email := none, billing_address_collection := none,
          line_items := none, locale := none, mode := none, discounts := none,
          submit_type := none, subscription_data := none, automatic_tax := none } =
      serializeCreateCheckoutSession
        { cancel_url := "https://a/cancel", payment_method_types := ["card"],
          success_url := "https://a/success", client_reference_id := none,
          customer := none, customer_email := none, billing_address_collection := none,
          line_items := none, locale := none, mode := none, discounts := none,
          submit_type := none, subscription_data := none, automatic_tax := none }
    ∧ serializeCreateBillingPortal ⟨some "cus_1"⟩ =
        serializeCreateBillingPortal ⟨some "cus_1"⟩ :=
  serialization_deterministic _ _ rfl _ _ rfl

/-- Claim C8: decoding a response from a JSON object with only declared
fields exposes exactly the provided values, and the absent state for every
declared optional field not in the payload: `BillingPortal` from `{}` has no
`url`; from `{"url": s}` it has exactly `s`; a line item from
`{"quantity": 2}` has `quantity = 2` and every optional field absent. -/
theorem decode_declared_fields_roundtrip (s : String) :
    BillingPortal.decode (Json.obj []) = Except.ok ⟨none⟩
    ∧ BillingPortal.decode (Json.obj [("url", Json.str s)]) = Except.ok ⟨some s⟩
    ∧ CheckoutSessionLineItem.decode (Json.obj [("quantity", Json.num 2)]) =
        Except.ok ⟨none, none, none, 2, none, none, none⟩ := by
  refine ⟨rfl, ?_, rfl⟩
  simp [BillingPortal.decode, getField?, decOptStr, Except.map]

/-- Claim C9: decoding a payload that lacks a declared required field
(`enabled` for `CheckoutAutomaticTax`, `quantity` for
`CheckoutSessionLineItem`) is a hard error — it never yields an object with
a silently substituted default. -/
theorem decode_missing_required_is_error (fs gs : List (String × Json))
    (t : CheckoutAutomaticTax) (li : CheckoutSessionLineItem)
    (h1 : getField? fs "enabled" = none) (h2 : getField? gs "quantity" = none) :
    CheckoutAutomaticTax.decode (Json.obj fs) ≠ Except.ok t
    ∧ CheckoutSessionLineItem.decode (Json.obj gs) ≠ Except.ok li := by
  constructor
  · intro hok
    simp [CheckoutAutomaticTax.decode, h1, decReqBool, Except.map] at hok
  · intro hok
    simp only [CheckoutSessionLineItem.decode, h2] at hok
    cases hA : decOptInt (getField? gs "amount") with
    | error e => rw [hA] at hok; exact Except.noConfusion hok
    | ok a =>
        cases hB : decOptStr (getField? gs "currency") with
        | error e => rw [hA, hB] at hok; exact Except.noConfusion hok
        | ok b =>
            cases hC : decOptStr (getField? gs "name") with
            | error e => rw [hA, hB, hC] at hok; exact Except.noConfusion hok
            | ok c => rw [hA, hB, hC] at hok; exact Except.noConfusion hok

/-- Witness for C9: decoding `{}` as `CheckoutAutomaticTax` and
`{"amount": 5}` as a line item both fail. -/
theorem decode_missing_required_is_error_witness :
    CheckoutAutomaticTax.decode (Json.obj []) ≠ Except.ok ⟨true⟩
    ∧ CheckoutSessionLineItem.decode (Json.obj [("amount", Json.num 5)]) ≠
        Except.ok ⟨none, none, none, 0, none, none, none⟩ :=
  decode_missing_required_is_error [] [("amount", Json.num 5)] ⟨true⟩
    ⟨none, none, none, 0, none, none, none⟩ rfl rfl

/-- Claim C10: `payment_method_types` elements and
`billing_address_collection` are free-form strings — any string value is
accepted at construction and serialized verbatim, with no client-side check
against the documented value sets. -/
theorem free_form_strings_serialized_verbatim (s : CreateCheckoutSession)
    (v pm : String) (hb : s.billing_address_collection = some v)
    (hp : s.payment_method_types = [pm]) :
    fieldEntries "billing_address_collection" (serializeCreateCheckoutSession s) =
      [("billing_address_collection", v)]
    ∧ ("payment_method_types[0]", pm) ∈ serializeCreateCheckoutSession s := by
  constructor
  · rw [fe_session_billing_address_collection s, hb]
    rfl
  · have hkey : ("payment_method_types[" ++ (toString (0 : Nat) ++ "]") : String) =
        "payment_method_types[0]" := by decide
    have hpmt : pmtSeg s.payment_method_types = [("payment_method_types[0]", pm)] := by
      rw [hp]
      simp [pmtSeg, List.enum, List.enumFrom, hkey]
    simp [serializeCreateCheckoutSession, List.mem_append, hpmt]

/-- Witness for C10 at concrete values the remote service does not even
document. -/
theorem free_form_strings_serialized_verbatim_witness :
    fieldEntries "billing_address_collection"
      (serializeCreateCheckoutSession
        { cancel_url := "https://a/cancel",
          payment_method_types := ["not-a-real-method"],
          success_url := "https://a/success", client_reference_id := none,
          customer := none, customer_email := none,
          billing_address_collection := some "definitely-not-auto-or-required",
          line_items := none, locale := none, mode := none, discounts := none,
          submit_type := none, subscription_data := none, automatic_tax := none }) =
      [("billing_address_collection", "definitely-not-auto-or-required")]
    ∧ ("payment_method_types[0]", "not-a-real-method") ∈
        serializeCreateCheckoutSession
          { cancel_url := "https://a/cancel",
            payment_method_types := ["not-a-real-method"],
            success_url := "https://a/success", client_reference_id := none,
            customer := none, customer_email := none,
            billing_address_collection := some "definitely-not-auto-or-required",
            line_items := none, locale := none, mode := none, discounts := none,
            submit_type := none, subscription_data := none, automatic_tax := none } :=
  free_form_strings_serialized_verbatim _ _ _ rfl rfl

end Stripe
